import Mathlib

/-!
Verification of the uptime-monitor backend (`server.js`, final version):
the monitor state machine `updateMonitorStatus`, the reachability probe
(HTTP attempt with `checkTcp` fallback), the alert dispatcher `sendAlert`,
the scheduler loop `checkMonitors`, and the `/api/edge-update` route.

Timestamps are modelled as integers (milliseconds since epoch, the value
of a JS `Date`); `null` dates are `Option.none`.  The side-effect order of
a single `updateMonitorStatus` call (database saves and alert dispatches)
is recorded as an explicit event list.
-/

namespace Uptime

/-- One entry of a monitor's `history` array: `{ status, timestamp }`. -/
structure HEntry where
  status : String
  timestamp : Int
deriving DecidableEq, Repr

/-- The persisted `Monitor` document (MonitorSchema in `server.js`). -/
structure Monitor where
  name : String
  url : String
  status : String
  lastChecked : Option Int
  downSince : Option Int
  alertSent : Bool
  history : List HEntry
deriving DecidableEq, Repr

/-- A monitor as created by `POST /monitors`:
`new Monitor({ name, url, status: 'unknown', history: [] })` with the
schema defaults `alertSent: false` and unset (`null`) dates. -/
def mkMonitor (name url : String) : Monitor :=
  { name := name, url := url, status := "unknown", lastChecked := none,
    downSince := none, alertSent := false, history := [] }

/-- Observable side effects of one `updateMonitorStatus` call, in program
order: `save m` is `await monitor.save()` with `m` the state written;
`dispatch d` is `await sendAlert(monitor, d)` (`d` is `'down'` or `'up'`). -/
inductive Ev where
  | save (m : Monitor)
  | dispatch (dir : String)
deriving DecidableEq, Repr

/-- The alert directions dispatched in an event list, in order. -/
def dispatches : List Ev → List String
  | [] => []
  | Ev.dispatch d :: r => d :: dispatches r
  | Ev.save _ :: r => dispatches r

/-- `monitor.history.push(e); if (monitor.history.length > 500) monitor.history.shift();` -/
def histPush (h : List HEntry) (e : HEntry) : List HEntry :=
  let h2 := h ++ [e]
  if 500 < h2.length then h2.drop 1 else h2

/-- `const minutesDown = (now - new Date(monitor.downSince)) / 60000;`
JS number division, modelled exactly in `ℚ`. -/
def minutesDown (now ds : Int) : ℚ := ((now - ds : Int) : ℚ) / 60000

/-- The monitor state machine `updateMonitorStatus(monitor, currentStatus)`
of `server.js`, with the wall clock `new Date()` passed in as `now`.
Returns the final in-memory monitor together with the ordered list of
saves and alert dispatches the call performs.  (The JS guard
`currentStatus === 'down' && monitor.downSince && !monitor.alertSent` is
rendered with the `downSince` null test as the outer match; `null` is the
only falsy value a mongoose `Date` path takes.) -/
def updateMonitorStatus (m0 : Monitor) (currentStatus : String) (now : Int) :
    Monitor × List Ev :=
  -- if (monitor.status !== currentStatus) { ... }
  let p1 : Monitor × List Ev :=
    if m0.status ≠ currentStatus then
      let m1 : Monitor :=
        { m0 with status := currentStatus,
                  history := histPush m0.history ⟨currentStatus, now⟩ }
      if currentStatus = "down" then
        ({ m1 with downSince := some now, alertSent := false }, [])
      else
        ({ m1 with downSince := none, alertSent := false },
          if m1.alertSent then [Ev.dispatch "up"] else [])
    else (m0, [])
  -- if (currentStatus === 'down' && monitor.downSince && !monitor.alertSent)
  let p2 : Monitor × List Ev :=
    match p1.1.downSince with
    | some ds =>
        if currentStatus = "down" ∧ p1.1.alertSent = false ∧
            2 ≤ minutesDown now ds then
          let m2 : Monitor := { p1.1 with alertSent := true }
          (m2, [Ev.save m2, Ev.dispatch "down"])
        else (p1.1, [])
    | none => (p1.1, [])
  -- monitor.lastChecked = new Date(); await monitor.save();
  let m3 : Monitor := { p2.1 with lastChecked := some now }
  (m3, p1.2 ++ p2.2 ++ [Ev.save m3])

/-- Result state of a transition that enters `down`. -/
def afterEnterDown (m : Monitor) (now : Int) : Monitor :=
  { m with status := "down", history := histPush m.history ⟨"down", now⟩,
           downSince := some now, alertSent := false, lastChecked := some now }

/-- Result state of a transition that enters a non-down status `s`. -/
def afterEnterUp (m : Monitor) (s : String) (now : Int) : Monitor :=
  { m with status := s, history := histPush m.history ⟨s, now⟩,
           downSince := none, alertSent := false, lastChecked := some now }

/-- Result state of a no-change cycle: only `lastChecked` moves. -/
def afterTouch (m : Monitor) (now : Int) : Monitor :=
  { m with lastChecked := some now }

/-- Result state once the sustained-down alert flag is set. -/
def afterFlag (m : Monitor) : Monitor :=
  { m with alertSent := true }

/-- A sequence of `updateMonitorStatus` calls: each step is the probed (or
edge-reported) status together with the wall clock of that cycle. -/
def runTransitions (m : Monitor) : List (String × Int) → Monitor
  | [] => m
  | (s, t) :: rest => runTransitions (updateMonitorStatus m s t).1 rest

/-- Monitor states reachable from registration (`POST /monitors`) by any
sequence of `updateMonitorStatus` calls. -/
inductive Reachable : Monitor → Prop where
  | init (name url : String) : Reachable (mkMonitor name url)
  | step {m : Monitor} (s : String) (t : Int) :
      Reachable m → Reachable (updateMonitorStatus m s t).1

/-- Scans an event list and checks that every alert dispatch is preceded
by some database save (the durability-first ordering of claim C3). -/
def durableAux (seenSave : Bool) : List Ev → Bool
  | [] => true
  | Ev.save _ :: r => durableAux true r
  | Ev.dispatch _ :: r => seenSave && durableAux seenSave r

/-- Every dispatch in `evs` happens after at least one save. -/
def savedBeforeDispatch (evs : List Ev) : Bool := durableAux false evs

/-- Scans an event list and checks that every `down` dispatch is preceded
by a save whose saved state has `alertSent = true`. -/
def downDurableAux (seen : Bool) : List Ev → Bool
  | [] => true
  | Ev.save m :: r => downDurableAux (seen || m.alertSent) r
  | Ev.dispatch d :: r => ((d != "down") || seen) && downDurableAux seen r

/-- Every `down` dispatch in `evs` happens after a save of an
`alertSent = true` state. -/
def downSavedFirst (evs : List Ev) : Bool := downDurableAux false evs

/-- Outcome of the `axios.get(monitor.url, ...)` attempt.  Collaborator
contract as the code relies on it: the request promise resolves exactly
when some status-code response is received (redirects, 4xx and 5xx
included) and rejects exactly on a transport error (timeout, DNS failure,
connection refused, TLS failure). -/
inductive HttpOutcome where
  | statusReceived (code : Nat)
  | transportError
deriving DecidableEq, Repr

/-- Whether the HTTP attempt resolved (no exception reached `catch`). -/
def httpResolved : HttpOutcome → Bool
  | .statusReceived _ => true
  | .transportError => false

/-- JS `String.prototype.startsWith`, on the character sequence. -/
def jsStartsWith (s p : String) : Bool := p.data.isPrefixOf s.data

/-- `const cleanUrl = targetUrl.startsWith('http') ? targetUrl : 'http://' + targetUrl;` -/
def cleanUrl (u : String) : String :=
  if jsStartsWith u "http" then u else "http://" ++ u

/-- The port `checkTcp` connects to:
`parsed.port || (cleanUrl.startsWith('https') ? 443 : 80)` — the explicit
port of the URL when present, else 443 for an https URL, else 80. -/
def tcpPort (u : String) (parsedPort : Option Nat) : Nat :=
  parsedPort.getD (if jsStartsWith (cleanUrl u) "https" then 443 else 80)

/-- `checkTcp(targetUrl)`: resolves `true` iff the URL parses and the raw
TCP connect succeeds before the 5 s timeout; a parse error, socket error
or timeout resolves `false` (the promise never rejects). -/
def checkTcp (parseOk connectOk : Bool) : Bool :=
  parseOk && connectOk

/-- The probe of `checkMonitors`: `currentStatus` starts as `'down'`, the
HTTP attempt resolving makes it `'up'`, and on rejection the `checkTcp`
fallback can still make it `'up'`. -/
def probe (http : HttpOutcome) (parseOk connectOk : Bool) : String :=
  if httpResolved http then "up"
  else if checkTcp parseOk connectOk then "up" else "down"

/-- `true` iff a fallible computation succeeded (what a `catch` observes). -/
def stepOk {ε α : Type} : Except ε α → Bool
  | .ok _ => true
  | .error _ => false

/-- The per-cycle loop of `checkMonitors`: skip monitors on the
`EDGE_MONITORS` list, run every other monitor's body (probe, transition,
saves — modelled as one fallible computation) inside
`try { ... } catch (err) { /* ignore */ }`.  An error thrown for one
monitor — e.g. mongoose's `DocumentNotFoundError` after a concurrent
delete — is swallowed and the loop continues.  Returns each processed
monitor paired with whether its body succeeded. -/
def checkMonitors {ε : Type} (edge : List String)
    (body : Monitor → Except ε Unit) :
    List Monitor → Except ε (List (Monitor × Bool))
  | [] => .ok []
  | m :: rest =>
      let r : Bool :=
        if edge.contains m.name then true else stepOk (body m)
      match checkMonitors edge body rest with
      | .ok l => .ok ((m, r) :: l)
      | .error e => .error e

/-- The per-subscriber loop of `sendAlert`: `keyOf` is the
`EMAIL_KEYS[recipientEmail]` lookup, `send k e` the outcome of
`new Resend(k).emails.send(...)` to `e`.  A missing key is `continue`;
a send is wrapped in `try { ... } catch (err) { log }`.  Returns the
attempted recipients with their outcomes. -/
def sendLoop (keyOf : String → Option String)
    (send : String → String → Except String Unit) :
    List String → Except String (List (String × Bool))
  | [] => .ok []
  | e :: rest =>
      match keyOf e with
      | none => sendLoop keyOf send rest
      | some k =>
          let ok : Bool := stepOk (send k e)
          match sendLoop keyOf send rest with
          | .ok l => .ok ((e, ok) :: l)
          | .error er => .error er

/-- `sendAlert`: load the subscriber list; if empty return immediately,
else run the per-subscriber loop. -/
def sendAlert (keyOf : String → Option String)
    (send : String → String → Except String Unit) (subs : List String) :
    Except String (List (String × Bool)) :=
  if subs.isEmpty then .ok [] else sendLoop keyOf send subs

/-- The attempts `sendAlert` makes: one per subscriber with a mapped key,
in subscriber order, each outcome a function of that recipient alone. -/
def sendAttempts (keyOf : String → Option String)
    (send : String → String → Except String Unit) (subs : List String) :
    List (String × Bool) :=
  subs.filterMap fun e => (keyOf e).map fun k => (e, stepOk (send k e))

/-- `POST /api/edge-update`: look the monitor up by name (`found` is the
`Monitor.findOne({ name })` result); 404 when absent, else feed the
reported status string straight into `updateMonitorStatus`. -/
def edgeUpdate (found : Option Monitor) (status : String) (now : Int) :
    Except Nat (Monitor × List Ev) :=
  match found with
  | none => .error 404
  | some m => .ok (updateMonitorStatus m status now)

/-- Concrete witness monitor: down since epoch, no alert sent yet. -/
def wMon : Monitor :=
  { mkMonitor "w" "http://w.example" with
      status := "down", downSince := some 0 }

/-- Concrete witness monitor: down since epoch, down alert already sent. -/
def cMon : Monitor :=
  { mkMonitor "c" "http://c.example" with
      status := "down", downSince := some 0, alertSent := true }

/-- Concrete witness monitor: status down but `downSince` null (migrated
data). -/
def nMon : Monitor :=
  { mkMonitor "n" "http://n.example" with status := "down" }

/-- Witness key mapping: every recipient has the same API key. -/
def wKey : String → Option String := fun _ => some "k"

/-- Witness send outcome: the send to `"b"` fails, all others succeed. -/
def wSend : String → String → Except String Unit :=
  fun _ e => if e = "b" then .error "boom" else .ok ()

end Uptime

namespace Uptime

/-- The threshold test `(now - downSince) / 60000 >= 2` holds exactly when
the outage is at least 120000 ms old. -/
theorem minutesDown_threshold (now ds : Int) :
    2 ≤ minutesDown now ds ↔ 120000 ≤ now - ds := by
  unfold minutesDown
  rw [le_div_iff₀ (by norm_num : (0 : ℚ) < 60000)]
  norm_num
  exact_mod_cast Iff.rfl

theorem minutesDown_self (t : Int) : minutesDown t t = 0 := by
  simp [minutesDown]

theorem two_not_le_zero : ¬ (2 : ℚ) ≤ 0 := by norm_num

/-- Transition into down (`monitor.status !== 'down'`, probe says down):
start the outage timer, clear the alert flag, no alert dispatched. -/
theorem ums_enter_down (m : Monitor) (now : Int) (h : m.status ≠ "down") :
    updateMonitorStatus m "down" now =
      (afterEnterDown m now, [Ev.save (afterEnterDown m now)]) := by
  simp [updateMonitorStatus, afterEnterDown, h, minutesDown_self,
    two_not_le_zero]

/-- Transition into any non-down status: clear `downSince`, dispatch a
recovery alert iff `alertSent` was set, then clear `alertSent`. -/
theorem ums_enter_up (m : Monitor) (s : String) (now : Int)
    (hch : m.status ≠ s) (hs : s ≠ "down") :
    updateMonitorStatus m s now =
      (afterEnterUp m s now,
       (if m.alertSent = true then [Ev.dispatch "up"] else []) ++
         [Ev.save (afterEnterUp m s now)]) := by
  simp [updateMonitorStatus, afterEnterUp, hch, hs]

/-- Still down past the threshold with no alert sent yet: set the flag,
save, then dispatch the down alert. -/
theorem ums_still_down_alert (m : Monitor) (now ds : Int)
    (hs : m.status = "down") (hd : m.downSince = some ds)
    (ha : m.alertSent = false) (hth : 2 ≤ minutesDown now ds) :
    updateMonitorStatus m "down" now =
      (afterTouch (afterFlag m) now,
       [Ev.save (afterFlag m), Ev.dispatch "down",
        Ev.save (afterTouch (afterFlag m) now)]) := by
  simp [updateMonitorStatus, afterTouch, afterFlag, hs, hd, ha, hth]

/-- Still down but below the threshold, or the alert already fired:
only `lastChecked` moves and no alert is dispatched. -/
theorem ums_still_down_noalert (m : Monitor) (now ds : Int)
    (hs : m.status = "down") (hd : m.downSince = some ds)
    (hno : m.alertSent = true ∨ ¬ 2 ≤ minutesDown now ds) :
    updateMonitorStatus m "down" now =
      (afterTouch m now, [Ev.save (afterTouch m now)]) := by
  rcases hno with hno | hno <;>
    simp [updateMonitorStatus, afterTouch, hs, hd, hno]

/-- Still down with `downSince` null: the sustained-down guard is false,
so nothing but `lastChecked` changes. -/
theorem ums_down_no_downSince (m : Monitor) (now : Int)
    (hs : m.status = "down") (hd : m.downSince = none) :
    updateMonitorStatus m "down" now =
      (afterTouch m now, [Ev.save (afterTouch m now)]) := by
  simp [updateMonitorStatus, afterTouch, hs, hd]

/-- Unchanged non-down status: only `lastChecked` moves. -/
theorem ums_same_not_down (m : Monitor) (s : String) (now : Int)
    (hch : m.status = s) (hs : s ≠ "down") :
    updateMonitorStatus m s now =
      (afterTouch m now, [Ev.save (afterTouch m now)]) := by
  cases hdd : m.downSince <;>
    simp [updateMonitorStatus, afterTouch, hch, hs, hdd]

end Uptime

namespace Uptime

/-- Helper: a status change appends one entry through `histPush`. -/
theorem ums_history_change (m : Monitor) (s : String) (now : Int)
    (hch : m.status ≠ s) :
    (updateMonitorStatus m s now).1.history =
      histPush m.history ⟨s, now⟩ := by
  by_cases hsd : s = "down"
  · subst hsd; rw [ums_enter_down m now hch]; rfl
  · rw [ums_enter_up m s now hch hsd]; rfl

/-- Helper: with no status change the history is untouched. -/
theorem ums_history_same (m : Monitor) (s : String) (now : Int)
    (hch : m.status = s) :
    (updateMonitorStatus m s now).1.history = m.history := by
  by_cases hsd : s = "down"
  · subst hsd
    cases hd : m.downSince with
    | none => rw [ums_down_no_downSince m now hch hd]; rfl
    | some ds =>
      by_cases ha : m.alertSent = true
      · rw [ums_still_down_noalert m now ds hch hd (Or.inl ha)]; rfl
      · by_cases hth : 2 ≤ minutesDown now ds
        · have ha' : m.alertSent = false := by simpa using ha
          rw [ums_still_down_alert m now ds hch hd ha' hth]; rfl
        · rw [ums_still_down_noalert m now ds hch hd (Or.inr hth)]; rfl
  · rw [ums_same_not_down m s now hch hsd]; rfl

/-- C1: for a monitor that is down with `downSince` set, a transition
call that still sees it down emits exactly one `down` alert and sets
`alertSent` when `alertSent` was false and `(now - downSince)/60000 ≥ 2`;
emits no alert below the threshold; and emits no further alert when
`alertSent` is already true. -/
theorem down_alert_exactly_once (m : Monitor) (now ds : Int)
    (hs : m.status = "down") (hd : m.downSince = some ds) :
    (m.alertSent = false → 2 ≤ minutesDown now ds →
      dispatches (updateMonitorStatus m "down" now).2 = ["down"] ∧
      (updateMonitorStatus m "down" now).1.alertSent = true) ∧
    (m.alertSent = false → minutesDown now ds < 2 →
      dispatches (updateMonitorStatus m "down" now).2 = []) ∧
    (m.alertSent = true →
      dispatches (updateMonitorStatus m "down" now).2 = []) := by
  refine ⟨fun ha hth => ?_, fun ha hth => ?_, fun ha => ?_⟩
  · rw [ums_still_down_alert m now ds hs hd ha hth]
    exact ⟨by simp [dispatches], rfl⟩
  · rw [ums_still_down_noalert m now ds hs hd (Or.inr (not_le.mpr hth))]
    simp [dispatches]
  · rw [ums_still_down_noalert m now ds hs hd (Or.inl ha)]
    simp [dispatches]

/-- C1 witness: `wMon` down since 0 and checked at 130000 ms
(≈2.17 min ≥ 2 min) gets exactly one down alert. -/
theorem down_alert_exactly_once_w :
    dispatches (updateMonitorStatus wMon "down" 130000).2 = ["down"] ∧
    (updateMonitorStatus wMon "down" 130000).1.alertSent = true :=
  (down_alert_exactly_once wMon 130000 0 rfl rfl).1 rfl
    (by rw [minutesDown_threshold]; norm_num)

/-- C2: a transition into `up` from any other status clears `downSince`,
clears `alertSent`, and dispatches a recovered alert iff `alertSent` was
true before; a down/up flap below the threshold dispatches nothing on
either transition. -/
theorem recovery_resets_and_alerts (m : Monitor) (now : Int)
    (h : m.status ≠ "up") :
    ((updateMonitorStatus m "up" now).1.downSince = none ∧
     (updateMonitorStatus m "up" now).1.alertSent = false ∧
     dispatches (updateMonitorStatus m "up" now).2 =
       (if m.alertSent = true then ["up"] else [])) ∧
    (∀ m2 : Monitor, ∀ t0 t1 : Int, m2.status ≠ "down" →
      minutesDown t1 t0 < 2 →
      dispatches (updateMonitorStatus m2 "down" t0).2 = [] ∧
      dispatches (updateMonitorStatus
        (updateMonitorStatus m2 "down" t0).1 "up" t1).2 = []) := by
  constructor
  · rw [ums_enter_up m "up" now h (by decide)]
    refine ⟨rfl, rfl, ?_⟩
    cases ha : m.alertSent <;> simp [dispatches, ha]
  · intro m2 t0 t1 h2 hlt
    rw [ums_enter_down m2 t0 h2]
    refine ⟨by simp [dispatches], ?_⟩
    rw [ums_enter_up _ "up" t1 (by simp [afterEnterDown]) (by decide)]
    simp [dispatches, afterEnterDown]

/-- C2 witness: `cMon` (down, alert sent) recovering at 100 ms, and a
fresh monitor flapping down at 0 and up at 90000 ms (1.5 min). -/
theorem recovery_resets_and_alerts_w :
    (updateMonitorStatus cMon "up" 100).1.downSince = none ∧
    dispatches (updateMonitorStatus cMon "up" 100).2 =
      (if cMon.alertSent = true then ["up"] else []) ∧
    dispatches (updateMonitorStatus (mkMonitor "f" "u") "down" 0).2 = [] ∧
    dispatches (updateMonitorStatus
      (updateMonitorStatus (mkMonitor "f" "u") "down" 0).1
      "up" 90000).2 = [] := by
  have h := recovery_resets_and_alerts cMon 100 (by decide)
  have h2 := h.2 (mkMonitor "f" "u") 0 90000 (by decide)
    (by norm_num [minutesDown])
  exact ⟨h.1.1, h.1.2.2, h2.1, h2.2⟩

/-- C4 counterexample: `nMon` is down with `downSince` null, yet a
transition call that keeps it down does not initialize `downSince`. -/
theorem null_downSince_not_initialized :
    (updateMonitorStatus nMon "down" 5).1.downSince ≠ some 5 := by
  rw [ums_down_no_downSince nMon 5 rfl rfl]
  decide

/-- C4 amended: for a monitor with status down and `downSince` null, a
transition call that keeps the status down leaves `downSince` null and
`alertSent` and the history unchanged, and dispatches nothing — the
sustained-down check stays permanently unable to trigger. -/
theorem null_downSince_unchanged (m : Monitor) (now : Int)
    (hs : m.status = "down") (hd : m.downSince = none) :
    (updateMonitorStatus m "down" now).1.downSince = none ∧
    (updateMonitorStatus m "down" now).1.alertSent = m.alertSent ∧
    (updateMonitorStatus m "down" now).1.history = m.history ∧
    dispatches (updateMonitorStatus m "down" now).2 = [] := by
  rw [ums_down_no_downSince m now hs hd]
  exact ⟨hd, rfl, rfl, by simp [dispatches]⟩

/-- C4 amended witness: the concrete migrated monitor `nMon`. -/
theorem null_downSince_unchanged_w :
    (updateMonitorStatus nMon "down" 5).1.downSince = none ∧
    dispatches (updateMonitorStatus nMon "down" 5).2 = [] := by
  have h := null_downSince_unchanged nMon 5 rfl rfl
  exact ⟨h.1, h.2.2.2⟩

/-- C10: `/api/edge-update` feeds the reported status string verbatim to
`updateMonitorStatus`; any status other than `'down'` that differs from
the current one takes the entering-up branch — it is recorded as the new
status and in history, `downSince` is cleared, a recovered alert is
dispatched iff `alertSent` was true, and `alertSent` is reset. -/
theorem edge_update_forwards (m : Monitor) (s : String) (now : Int)
    (hnd : s ≠ "down") (hch : m.status ≠ s) :
    edgeUpdate (some m) s now = .ok (updateMonitorStatus m s now) ∧
    (updateMonitorStatus m s now).1.status = s ∧
    (updateMonitorStatus m s now).1.history =
      histPush m.history ⟨s, now⟩ ∧
    (updateMonitorStatus m s now).1.downSince = none ∧
    (updateMonitorStatus m s now).1.alertSent = false ∧
    dispatches (updateMonitorStatus m s now).2 =
      (if m.alertSent = true then ["up"] else []) := by
  refine ⟨rfl, ?_⟩
  rw [ums_enter_up m s now hch hnd]
  refine ⟨rfl, rfl, rfl, rfl, ?_⟩
  cases ha : m.alertSent <;> simp [dispatches, ha]

/-- C10 witness: the typo status `"Down"` reported for `cMon` (down,
alert sent) is stored verbatim and triggers the recovery branch. -/
theorem edge_update_forwards_w :
    (updateMonitorStatus cMon "Down" 7).1.status = "Down" ∧
    (updateMonitorStatus cMon "Down" 7).1.downSince = none ∧
    dispatches (updateMonitorStatus cMon "Down" 7).2 =
      (if cMon.alertSent = true then ["up"] else []) := by
  have h := edge_update_forwards cMon "Down" 7 (by decide) (by decide)
  exact ⟨h.2.1, h.2.2.2.1, h.2.2.2.2.2⟩

end Uptime

namespace Uptime

/-- C3 counterexample: the recovery transition of `cMon` (down, alert
sent) emits a `recovered` alert, yet dispatches it before any save of
the updated state — a failed save after dispatch re-emits it later. -/
theorem recovered_alert_not_saved_first :
    dispatches (updateMonitorStatus cMon "up" 100).2 = ["up"] ∧
    savedBeforeDispatch (updateMonitorStatus cMon "up" 100).2 = false := by
  decide

/-- C3 amended: every `down` alert is dispatched only after a save of the
`alertSent = true` state (durability-first holds for down alerts); a
`recovered` alert, by contrast, is always the first side effect of its
transition, dispatched before any save. -/
theorem down_alert_saved_first (m : Monitor) (s : String) (now : Int) :
    downSavedFirst (updateMonitorStatus m s now).2 = true ∧
    ("up" ∈ dispatches (updateMonitorStatus m s now).2 →
      (updateMonitorStatus m s now).2.head? = some (Ev.dispatch "up")) := by
  by_cases hch : m.status = s
  · by_cases hsd : s = "down"
    · subst hsd
      cases hd : m.downSince with
      | none =>
        rw [ums_down_no_downSince m now hch hd]
        exact ⟨rfl, by simp [dispatches]⟩
      | some ds =>
        by_cases ha : m.alertSent = true
        · rw [ums_still_down_noalert m now ds hch hd (Or.inl ha)]
          exact ⟨rfl, by simp [dispatches]⟩
        · have ha' : m.alertSent = false := by simpa using ha
          by_cases hth : 2 ≤ minutesDown now ds
          · rw [ums_still_down_alert m now ds hch hd ha' hth]
            exact ⟨by simp [downSavedFirst, downDurableAux, afterFlag],
              by simp [dispatches]⟩
          · rw [ums_still_down_noalert m now ds hch hd (Or.inr hth)]
            exact ⟨rfl, by simp [dispatches]⟩
    · rw [ums_same_not_down m s now hch hsd]
      exact ⟨rfl, by simp [dispatches]⟩
  · by_cases hsd : s = "down"
    · subst hsd
      rw [ums_enter_down m now hch]
      exact ⟨rfl, by simp [dispatches]⟩
    · rw [ums_enter_up m s now hch hsd]
      cases ha : m.alertSent <;>
        simp [downSavedFirst, downDurableAux, dispatches, ha]

/-- C3 amended witness: `cMon` recovering — the recovered dispatch is the
first event, and (vacuously for down alerts here) down-durability holds. -/
theorem down_alert_saved_first_w :
    downSavedFirst (updateMonitorStatus cMon "up" 100).2 = true ∧
    (updateMonitorStatus cMon "up" 100).2.head? =
      some (Ev.dispatch "up") := by
  have h := down_alert_saved_first cMon "up" 100
  exact ⟨h.1, h.2 (by decide)⟩

/-- Helper: `histPush` keeps the history at 500 entries or fewer. -/
theorem histPush_length_le (h : List HEntry) (e : HEntry)
    (hle : h.length ≤ 500) : (histPush h e).length ≤ 500 := by
  simp only [histPush]
  split_ifs with h1 <;> simp at h1 ⊢ <;> omega

/-- Helper: below the cap `histPush` appends; at the cap it also evicts
the oldest (head) entry. -/
theorem histPush_eq_of_le (l : List HEntry) (e : HEntry)
    (hle : l.length ≤ 500) :
    histPush l e = (if l.length = 500 then l.tail else l) ++ [e] := by
  have hlen : (l ++ [e]).length = l.length + 1 := by simp
  by_cases h5 : l.length = 500
  · have hgt : 500 < (l ++ [e]).length := by rw [hlen]; omega
    simp only [histPush]
    rw [if_pos hgt, if_pos h5,
      @List.drop_append_of_le_length _ l [e] 1 (by omega), List.drop_one]
  · have hng : ¬ 500 < (l ++ [e]).length := by rw [hlen]; omega
    simp only [histPush]
    rw [if_neg hng, if_neg h5]

/-- Helper: one transition keeps the history within the cap. -/
theorem ums_history_le (m : Monitor) (s : String) (now : Int)
    (hle : m.history.length ≤ 500) :
    (updateMonitorStatus m s now).1.history.length ≤ 500 := by
  by_cases hch : m.status = s
  · rw [ums_history_same m s now hch]; exact hle
  · rw [ums_history_change m s now hch]; exact histPush_length_le _ _ hle

/-- Helper: any sequence of transitions keeps the history within the cap. -/
theorem runTransitions_history_le :
    ∀ (steps : List (String × Int)) (m : Monitor),
      m.history.length ≤ 500 →
      (runTransitions m steps).history.length ≤ 500 := by
  intro steps
  induction steps with
  | nil => intro m hle; exact hle
  | cons st rest ih =>
      intro m hle
      cases st with
      | mk s t =>
          simp only [runTransitions]
          exact ih _ (ums_history_le m s t hle)

/-- C5: starting from at most 500 history entries, any number of
transitions leaves at most 500; a status change appends an entry,
evicting the oldest first exactly when the history is full; a no-change
cycle leaves the history untouched. -/
theorem history_bounded (m : Monitor) (hle : m.history.length ≤ 500) :
    (∀ steps : List (String × Int),
      (runTransitions m steps).history.length ≤ 500) ∧
    (∀ s : String, ∀ t : Int, m.status ≠ s →
      (updateMonitorStatus m s t).1.history =
        (if m.history.length = 500 then m.history.tail else m.history)
          ++ [⟨s, t⟩]) ∧
    (∀ s : String, ∀ t : Int, m.status = s →
      (updateMonitorStatus m s t).1.history = m.history) := by
  refine ⟨fun steps => runTransitions_history_le steps m hle,
    fun s t hch => ?_, fun s t hch => ums_history_same m s t hch⟩
  rw [ums_history_change m s t hch, histPush_eq_of_le _ _ hle]

/-- C5 witness: a fresh monitor through a down/up flap. -/
theorem history_bounded_w :
    (runTransitions (mkMonitor "a" "u")
      [("down", 0), ("up", 70000)]).history.length ≤ 500 ∧
    (updateMonitorStatus (mkMonitor "a" "u") "down" 0).1.history =
      (if (mkMonitor "a" "u").history.length = 500
        then (mkMonitor "a" "u").history.tail
        else (mkMonitor "a" "u").history) ++ [⟨"down", 0⟩] ∧
    (updateMonitorStatus (mkMonitor "a" "u") "unknown" 3).1.history =
      (mkMonitor "a" "u").history := by
  have h := history_bounded (mkMonitor "a" "u") (by decide)
  exact ⟨h.1 [("down", 0), ("up", 70000)], h.2.1 "down" 0 (by decide),
    h.2.2 "unknown" 3 rfl⟩

/-- Helper: one transition preserves the `downSince`/`status` invariant. -/
theorem ums_invariant_step (m : Monitor) (s : String) (now : Int)
    (ih : m.downSince.isSome = true ↔ m.status = "down") :
    (updateMonitorStatus m s now).1.downSince.isSome = true ↔
      (updateMonitorStatus m s now).1.status = "down" := by
  by_cases hch : m.status = s
  · by_cases hsd : s = "down"
    · subst hsd
      cases hd : m.downSince with
      | none =>
          rw [ums_down_no_downSince m now hch hd]
          simpa [afterTouch] using ih
      | some ds =>
          by_cases ha : m.alertSent = true
          · rw [ums_still_down_noalert m now ds hch hd (Or.inl ha)]
            simpa [afterTouch] using ih
          · have ha' : m.alertSent = false := by simpa using ha
            by_cases hth : 2 ≤ minutesDown now ds
            · rw [ums_still_down_alert m now ds hch hd ha' hth]
              simpa [afterTouch, afterFlag] using ih
            · rw [ums_still_down_noalert m now ds hch hd (Or.inr hth)]
              simpa [afterTouch] using ih
    · rw [ums_same_not_down m s now hch hsd]
      simpa [afterTouch] using ih
  · by_cases hsd : s = "down"
    · subst hsd
      rw [ums_enter_down m now hch]
      simp [afterEnterDown]
    · rw [ums_enter_up m s now hch hsd]
      simp [afterEnterUp, hsd]

/-- C6: for every monitor reachable from registration by transitions,
`downSince` is non-null exactly when the status is down. -/
theorem downSince_iff_down (m : Monitor) (hr : Reachable m) :
    m.downSince.isSome = true ↔ m.status = "down" := by
  induction hr with
  | init name url => simp [mkMonitor]
  | step s t hr ih => exact ums_invariant_step _ s t ih

/-- C6 witness: the invariant at the registration state itself. -/
theorem downSince_iff_down_w :
    (mkMonitor "a" "u").downSince.isSome = true ↔
      (mkMonitor "a" "u").status = "down" :=
  downSince_iff_down _ (Reachable.init "a" "u")

end Uptime

namespace Uptime

/-- C7: the probe always yields `'up'` or `'down'` (it converts every
network exception, never throwing); any status-code response makes it
`'up'`; the final result is `'up'` iff the HTTP attempt resolved or the
TCP connect succeeded; and `checkTcp` connects to the URL's explicit
port when present, else 443 for an https URL, else 80. -/
theorem probe_up_or_down :
    (∀ c : Nat, ∀ pk ck : Bool,
      probe (HttpOutcome.statusReceived c) pk ck = "up") ∧
    (∀ h : HttpOutcome, ∀ pk ck : Bool,
      probe h pk ck = "up" ∨ probe h pk ck = "down") ∧
    (∀ h : HttpOutcome, ∀ pk ck : Bool,
      probe h pk ck = "up" ↔
        (httpResolved h = true ∨ checkTcp pk ck = true)) ∧
    (∀ u : String, ∀ p : Nat, tcpPort u (some p) = p) ∧
    (∀ u : String, jsStartsWith (cleanUrl u) "https" = true →
      tcpPort u none = 443) ∧
    (∀ u : String, jsStartsWith (cleanUrl u) "https" = false →
      tcpPort u none = 80) := by
  refine ⟨fun c pk ck => rfl, fun h pk ck => ?_, fun h pk ck => ?_,
    fun u p => rfl, fun u hu => ?_, fun u hu => ?_⟩
  · cases h <;> cases pk <;> cases ck <;>
      simp [probe, httpResolved, checkTcp]
  · cases h <;> cases pk <;> cases ck <;>
      simp [probe, httpResolved, checkTcp]
  · simp [tcpPort, hu]
  · simp [tcpPort, hu]

/-- C7 witness: a transport error with an open TCP port is `'up'`; an
https URL with no explicit port gets 443, a bare host gets 80, an
explicit port wins. -/
theorem probe_up_or_down_w :
    probe HttpOutcome.transportError true true = "up" ∧
    tcpPort "https://a.example" none = 443 ∧
    tcpPort "a.example" none = 80 ∧
    tcpPort "http://a.example" (some 8080) = 8080 := by
  have h := probe_up_or_down
  exact ⟨(h.2.2.1 HttpOutcome.transportError true true).mpr (Or.inr rfl),
    h.2.2.2.2.1 "https://a.example" (by decide),
    h.2.2.2.2.2 "a.example" (by decide),
    h.2.2.2.1 "http://a.example" 8080⟩

/-- C8: the cycle loop never lets a monitor's failure escape — whatever
each monitor's body does (including throwing, e.g. after a concurrent
delete), `checkMonitors` returns `ok` and processes every monitor of the
set in order. -/
theorem cycle_isolated {ε : Type} (edge : List String)
    (body : Monitor → Except ε Unit) (ms : List Monitor) :
    checkMonitors edge body ms =
      .ok (ms.map fun m =>
        (m, if edge.contains m.name then true else stepOk (body m))) := by
  induction ms with
  | nil => rfl
  | cons m rest ih => simp [checkMonitors, ih]

/-- Helper: the subscriber loop never propagates an error and attempts
exactly the keyed subscribers, each outcome a function of that recipient
alone. -/
theorem sendLoop_eq (keyOf : String → Option String)
    (send : String → String → Except String Unit) :
    ∀ subs : List String,
      sendLoop keyOf send subs = .ok (sendAttempts keyOf send subs) := by
  intro subs
  induction subs with
  | nil => rfl
  | cons e rest ih =>
      cases hk : keyOf e <;>
        simp [sendLoop, sendAttempts, List.filterMap_cons, hk, ih]

/-- Helper: when every subscriber has a key, the attempts are one per
subscriber, in order. -/
theorem sendAttempts_all_keyed (keyOf : String → Option String)
    (send : String → String → Except String Unit) :
    ∀ subs : List String, (∀ e ∈ subs, (keyOf e).isSome = true) →
      (sendAttempts keyOf send subs).map Prod.fst = subs := by
  intro subs
  induction subs with
  | nil => intro _; rfl
  | cons e rest ih =>
      intro hk
      obtain ⟨k, hk'⟩ := Option.isSome_iff_exists.mp
        (hk e (List.mem_cons_self e rest))
      have := ih fun x hx => hk x (List.mem_cons_of_mem e hx)
      simp [sendAttempts, List.filterMap_cons, hk'] at this ⊢
      exact this

/-- C9: `sendAlert` never raises an error back to the caller; its
attempts are exactly one per subscriber with a mapped key, in order,
each outcome depending only on that recipient (so one failure cannot
suppress the other attempts); an empty subscriber list is a no-op; and
when every subscriber has a key there is exactly one attempt per
subscriber. -/
theorem dispatch_per_subscriber (keyOf : String → Option String)
    (send : String → String → Except String Unit) (subs : List String) :
    sendAlert keyOf send subs = .ok (sendAttempts keyOf send subs) ∧
    (subs = [] → sendAlert keyOf send subs = .ok []) ∧
    ((∀ e ∈ subs, (keyOf e).isSome = true) →
      (sendAttempts keyOf send subs).map Prod.fst = subs) := by
  refine ⟨?_, fun he => ?_, fun hk => sendAttempts_all_keyed keyOf send subs hk⟩
  · unfold sendAlert
    split_ifs with he
    · rw [List.isEmpty_iff] at he
      subst he
      rfl
    · exact sendLoop_eq keyOf send subs
  · subst he
    rfl

/-- C9 witness: three subscribers, the middle send fails, the other two
attempts still happen and no error escapes. -/
theorem dispatch_per_subscriber_w :
    sendAlert wKey wSend ["a", "b", "c"] =
      .ok [("a", true), ("b", false), ("c", true)] ∧
    (sendAttempts wKey wSend ["a", "b", "c"]).map Prod.fst =
      ["a", "b", "c"] := by
  have h := dispatch_per_subscriber wKey wSend ["a", "b", "c"]
  refine ⟨?_, h.2.2 (by decide)⟩
  rw [h.1]
  rfl

end Uptime
